import Mathlib

/-!
Verification development for the AI-News-Notifier pipeline
(`ai_news_notifier.py`).

The pipeline is a single linear batch job: fetch up to five recent articles
from a news API, ask a text-generation service for a `{summary, category}`
JSON object per article, format the enriched list as one Discord-webhook
payload, and POST it once.

The embedding below is a faithful translation of the Python source.  The
three external round-trips (news fetch, per-article generation call, webhook
POST) are modelled as explicit oracle arguments describing their outcome;
the ambient `datetime.now()` run date is an explicit argument.  Python
exceptions that the source does not catch are modelled with
`Except String`; the `error` payload names the exception that would be
raised (`KeyError`, `ValueError`).
-/

namespace AINews

/-- A fetched news article record.  Each field is the value of the
corresponding JSON key; `none` models a key that is absent from the record
(or carries JSON `null`, which the source's `dict.get` lookups treat the
same way). -/
structure Article where
  title : Option String
  url : Option String
  publishedAt : Option String
  content : Option String
  description : Option String
deriving DecidableEq

/-- The two relevant fields of the JSON object obtained from the generation
service once `json.loads` succeeds.  Either key may be absent: the source
returns the parsed object without validating it. -/
structure SummaryData where
  summary : Option String
  category : Option String
deriving DecidableEq

/-- Outcome of one round-trip to the generation service.  `fail` covers any
exception raised by the client call or by `json.loads` on the returned text
(network error, quota, output that is not parseable JSON); `parsed d` means
the call returned text that `json.loads` accepted as an object with the
given relevant fields. -/
inductive GroqOutcome where
  | fail : GroqOutcome
  | parsed (d : SummaryData) : GroqOutcome
deriving DecidableEq

/-- Outcome of the News API round-trip.  `requestError` covers
`requests.exceptions.RequestException` (transport failure, or the non-2xx
status turned into an exception by `raise_for_status`); `jsonError` covers
`json.JSONDecodeError` while parsing the body; `ok f` is a parsed JSON
object whose optional `articles` field holds `f`. -/
inductive FetchOutcome where
  | requestError : FetchOutcome
  | jsonError : FetchOutcome
  | ok (articlesField : Option (List Article)) : FetchOutcome
deriving DecidableEq

/-- `get_ai_news`: both caught exception classes yield `[]`, and otherwise
the function returns `news_data.get("articles", [])` (the empty-list check
only prints a message; the returned value is the same). -/
def get_ai_news (o : FetchOutcome) : List Article :=
  match o with
  | .requestError => []
  | .jsonError => []
  | .ok f => f.getD []

/-- The fixed summary used when the article body is empty. -/
def empty_content_summary : String := "記事の内容が空のため、要約できませんでした。"

/-- The fixed summary used when the generation call or its parsing fails. -/
def groq_error_summary : String := "要約中にエラーが発生しました。"

/-- `summarize_and_categorize_with_groq`.  Returns the produced summary data
together with a flag recording whether the external generation service was
reached.  Empty input short-circuits to the 不明 (unknown) fallback before
any client is created; an exception anywhere in the call or in `json.loads`
is caught and yields the エラー (error) fallback; a successfully parsed
object is returned as-is, without validation. -/
def summarize_and_categorize_with_groq (oracle : GroqOutcome)
    (article_content : String) : SummaryData × Bool :=
  if article_content = "" then
    ({ summary := some empty_content_summary, category := some "不明" }, false)
  else
    match oracle with
    | .fail => ({ summary := some groq_error_summary, category := some "エラー" }, true)
    | .parsed d => (d, true)

/-- The six fields of a parsed naive `datetime`. -/
structure DateTime6 where
  year : Nat
  month : Nat
  day : Nat
  hour : Nat
  minute : Nat
  second : Nat
deriving DecidableEq

/-- Decimal digit test. -/
def isDigitChar (c : Char) : Bool := decide ('0' ≤ c) && decide (c ≤ '9')

/-- Value of a list of decimal digit characters. -/
def digitsToNat (cs : List Char) : Nat :=
  cs.foldl (fun n c => n * 10 + (c.toNat - '0'.toNat)) 0

/-- Length of a month, as validated by the `datetime` constructor. -/
def daysInMonth (y m : Nat) : Nat :=
  if m = 2 then
    if (y % 4 = 0 ∧ y % 100 ≠ 0) ∨ y % 400 = 0 then 29 else 28
  else if m = 4 ∨ m = 6 ∨ m = 9 ∨ m = 11 then 30 else 31

/-- `datetime.strptime(s, "%Y-%m-%dT%H:%M:%SZ")`: succeeds exactly on
20-character strings of that literal shape carrying a valid calendar date
and time of day; any other input raises `ValueError`, modelled as `none`. -/
def strptimeIsoZ (s : String) : Option DateTime6 :=
  let cs := s.data
  if cs.length = 20 ∧ cs.get? 4 = some '-' ∧ cs.get? 7 = some '-' ∧
      cs.get? 10 = some 'T' ∧ cs.get? 13 = some ':' ∧ cs.get? 16 = some ':' ∧
      cs.get? 19 = some 'Z' ∧ (cs.take 4).all isDigitChar = true ∧
      ((cs.drop 5).take 2).all isDigitChar = true ∧
      ((cs.drop 8).take 2).all isDigitChar = true ∧
      ((cs.drop 11).take 2).all isDigitChar = true ∧
      ((cs.drop 14).take 2).all isDigitChar = true ∧
      ((cs.drop 17).take 2).all isDigitChar = true then
    let y := digitsToNat (cs.take 4)
    let mo := digitsToNat ((cs.drop 5).take 2)
    let d := digitsToNat ((cs.drop 8).take 2)
    let h := digitsToNat ((cs.drop 11).take 2)
    let mi := digitsToNat ((cs.drop 14).take 2)
    let se := digitsToNat ((cs.drop 17).take 2)
    if 1 ≤ y ∧ 1 ≤ mo ∧ mo ≤ 12 ∧ 1 ≤ d ∧ d ≤ daysInMonth y mo ∧
        h ≤ 23 ∧ mi ≤ 59 ∧ se ≤ 59 then
      some ⟨y, mo, d, h, mi, se⟩
    else none
  else none

/-- Zero-pad to two digits, as `strftime` does for `%m %d %H %M`. -/
def pad2 (n : Nat) : String := if n < 10 then "0" ++ toString n else toString n

/-- Zero-pad to four digits, as `strftime` renders `%Y` for the 4-digit
years `strptimeIsoZ` accepts. -/
def pad4 (n : Nat) : String :=
  if n < 10 then "000" ++ toString n
  else if n < 100 then "00" ++ toString n
  else if n < 1000 then "0" ++ toString n
  else toString n

/-- `strftime("%Y-%m-%d %H:%M")` on a parsed timestamp: seconds are
dropped, fields are zero-padded. -/
def strftimeYmdHm (dt : DateTime6) : String :=
  pad4 dt.year ++ "-" ++ pad2 dt.month ++ "-" ++ pad2 dt.day ++ " " ++
    pad2 dt.hour ++ ":" ++ pad2 dt.minute

/-- One entry of an embed's `fields` list. -/
structure EmbedField where
  name : String
  value : String
  inline : Bool
deriving DecidableEq

/-- One Discord embed, one per article. -/
structure Embed where
  title : String
  url : String
  description : String
  color : Nat
  fields : List EmbedField
  footerText : String
deriving DecidableEq

/-- The webhook payload built once per run. -/
structure DigestPayload where
  username : String
  avatar_url : String
  content : String
  embeds : List Embed
deriving DecidableEq

/-- One element of `articles_with_summaries`, as assembled in `main`:
the three copied article fields plus the attached summary data. -/
structure ArticleInfo where
  title : String
  url : String
  publishedAt : String
  summary_data : SummaryData
deriving DecidableEq

/-- Building one embed dict inside `send_to_discord`.  The
`['summary']` and `['category']` lookups raise `KeyError` when the parsed
summary object lacks those keys, and `strptime` raises `ValueError` on a
`publishedAt` it cannot parse; all of this happens before the `try` that
wraps only the POST, so these exceptions escape `send_to_discord`. -/
def make_embed (a : ArticleInfo) : Except String Embed :=
  match a.summary_data.summary with
  | none => Except.error "KeyError: summary"
  | some s =>
    match a.summary_data.category with
    | none => Except.error "KeyError: category"
    | some c =>
      match strptimeIsoZ a.publishedAt with
      | none => Except.error "ValueError: time data does not match format %Y-%m-%dT%H:%M:%SZ"
      | some dt =>
        Except.ok
          { title := "📰 " ++ a.title
            url := a.url
            description := s
            color := 0x5865F2
            fields := [{ name := "カテゴリ", value := "`" ++ c ++ "`", inline := true }]
            footerText := "Published at: " ++ strftimeYmdHm dt }

/-- The embed-building loop of `send_to_discord`: sequential, and the first
uncaught exception aborts everything. -/
def build_embeds : List ArticleInfo → Except String (List Embed)
  | [] => Except.ok []
  | a :: rest =>
    match make_embed a with
    | Except.error e => Except.error e
    | Except.ok e =>
      match build_embeds rest with
      | Except.error e2 => Except.error e2
      | Except.ok es => Except.ok (e :: es)

/-- The payload dict of `send_to_discord`, with the ambient
`datetime.now().strftime("%Y-%m-%d")` made an explicit `nowDate`
argument. -/
def build_payload (nowDate : String) (arts : List ArticleInfo) :
    Except String DigestPayload :=
  match build_embeds arts with
  | Except.error e => Except.error e
  | Except.ok embeds =>
    Except.ok
      { username := "AI News Notifier"
        avatar_url := "https://i.imgur.com/4M34hi2.png"
        content := "## 📢 今日のAIニューストレンド (" ++ nowDate ++ ")"
        embeds := embeds }

/-- `send_to_discord`: builds the payload, then performs the single POST,
whose outcome is the `postOk` oracle.  A `RequestException` from the POST
(transport failure or the non-2xx raised by `raise_for_status`) is caught
and only reported, so the function returns normally either way, with no
retry; the returned flag records the delivery outcome. -/
def send_to_discord (nowDate : String) (postOk : Bool)
    (arts : List ArticleInfo) : Except String (DigestPayload × Bool) :=
  match build_payload nowDate arts with
  | Except.error e => Except.error e
  | Except.ok payload => Except.ok (payload, postOk)

/-- `article.get('content') or article.get('description', '')`: a present,
non-empty (truthy) `content` wins; an absent or empty `content` falls back
to `description`, which defaults to the empty string when absent. -/
def content_to_summarize (a : Article) : String :=
  match a.content with
  | some c => if c = "" then a.description.getD "" else c
  | none => a.description.getD ""

/-- One iteration of the enrichment loop in `main`: the summarization runs
first, then `article['title']`, `article['url']`, `article['publishedAt']`
are read with bracket lookups that raise `KeyError` (uncaught) when the key
is absent. -/
def enrich_article (oracle : GroqOutcome) (a : Article) :
    Except String ArticleInfo :=
  let sd := (summarize_and_categorize_with_groq oracle (content_to_summarize a)).1
  match a.title with
  | none => Except.error "KeyError: title"
  | some t =>
    match a.url with
    | none => Except.error "KeyError: url"
    | some u =>
      match a.publishedAt with
      | none => Except.error "KeyError: publishedAt"
      | some p => Except.ok { title := t, url := u, publishedAt := p, summary_data := sd }

/-- The sequential enrichment loop of `main`.  `i` is the position of the
next article, used to index the per-article generation-service oracle; the
returned number counts how many times the summarizer was invoked. -/
def enrich_loop (groq : Nat → GroqOutcome) :
    Nat → List Article → Except String (List ArticleInfo × Nat)
  | _, [] => Except.ok ([], 0)
  | i, a :: rest =>
    match enrich_article (groq i) a with
    | Except.error e => Except.error e
    | Except.ok info =>
      match enrich_loop groq (i + 1) rest with
      | Except.error e => Except.error e
      | Except.ok (tail, n) => Except.ok (info :: tail, n + 1)

/-- Observable outcome of one run. -/
structure RunResult where
  summarizeCalls : Nat
  payload : Option DigestPayload
  postAttempted : Bool
  postSucceeded : Bool
deriving DecidableEq

/-- `main`: fetch, early return when the fetched list is empty, sequential
per-article enrichment, then a single notification.  The external effects
are the three oracles (fetch outcome, per-article generation outcome,
webhook POST outcome) and the ambient run date `nowDate`. -/
def main (fetch : FetchOutcome) (groq : Nat → GroqOutcome) (nowDate : String)
    (postOk : Bool) : Except String RunResult :=
  let articles := get_ai_news fetch
  if articles.isEmpty then
    Except.ok { summarizeCalls := 0, payload := none, postAttempted := false,
                postSucceeded := false }
  else
    match enrich_loop groq 0 articles with
    | Except.error e => Except.error e
    | Except.ok (enriched, n) =>
      if enriched.isEmpty then
        Except.ok { summarizeCalls := n, payload := none, postAttempted := false,
                    postSucceeded := false }
      else
        match send_to_discord nowDate postOk enriched with
        | Except.error e => Except.error e
        | Except.ok (payload, success) =>
          Except.ok { summarizeCalls := n, payload := some payload,
                      postAttempted := true, postSucceeded := success }

/-- The shape the pipeline needs from a fetched article to avoid the
uncaught `KeyError` / `ValueError` paths: `title` and `url` present, and a
`publishedAt` that `strptime` accepts. -/
def articleWF (a : Article) : Bool :=
  a.title.isSome && a.url.isSome &&
    (match a.publishedAt with
     | some p => (strptimeIsoZ p).isSome
     | none => false)

/-- The shape the formatter needs from a generation outcome: a successfully
parsed object must carry both the `summary` and the `category` key. -/
def groqWF (o : GroqOutcome) : Bool :=
  match o with
  | .fail => true
  | .parsed d => d.summary.isSome && d.category.isSome

/-- The enriched record `enrich_article` produces when all three article
keys are present (stated with `getD` so it is total). -/
def mkInfo (oracle : GroqOutcome) (a : Article) : ArticleInfo :=
  { title := a.title.getD ""
    url := a.url.getD ""
    publishedAt := a.publishedAt.getD ""
    summary_data := (summarize_and_categorize_with_groq oracle (content_to_summarize a)).1 }

/-- The embed `make_embed` produces when the summary data is complete and
the publish timestamp parses (stated with `getD` so it is total). -/
def embedOf (a : ArticleInfo) : Embed :=
  { title := "📰 " ++ a.title
    url := a.url
    description := a.summary_data.summary.getD ""
    color := 0x5865F2
    fields := [{ name := "カテゴリ"
                 value := "`" ++ a.summary_data.category.getD "" ++ "`"
                 inline := true }]
    footerText := "Published at: " ++
      strftimeYmdHm ((strptimeIsoZ a.publishedAt).getD ⟨1, 1, 1, 0, 0, 0⟩) }

/-- On an article carrying all three required keys, `enrich_article`
succeeds and produces `mkInfo`. -/
lemma enrich_article_ok (oracle : GroqOutcome) (a : Article)
    (h : articleWF a = true) :
    enrich_article oracle a = Except.ok (mkInfo oracle a) := by
  unfold articleWF at h
  cases ht : a.title with
  | none => rw [ht] at h; simp at h
  | some t =>
    cases hu : a.url with
    | none => rw [ht, hu] at h; simp at h
    | some u =>
      cases hp : a.publishedAt with
      | none => rw [ht, hu, hp] at h; simp at h
      | some p =>
        simp [enrich_article, mkInfo, ht, hu, hp]

/-- On a list of well-formed articles, the enrichment loop succeeds, invokes
the summarizer once per article, and produces `mkInfo` of the `k`-th article
with the `(i+k)`-th generation outcome at position `k`. -/
lemma enrich_loop_ok (groq : Nat → GroqOutcome) (arts : List Article) :
    ∀ i : Nat, (∀ a ∈ arts, articleWF a = true) →
    ∃ infos : List ArticleInfo,
      enrich_loop groq i arts = Except.ok (infos, arts.length) ∧
      infos.length = arts.length ∧
      ∀ k (hk : k < arts.length) (hk2 : k < infos.length),
        infos.get ⟨k, hk2⟩ = mkInfo (groq (i + k)) (arts.get ⟨k, hk⟩) := by
  induction arts with
  | nil =>
    intro i _
    exact ⟨[], rfl, rfl, fun k hk _ => absurd hk (Nat.not_lt_zero k)⟩
  | cons a rest ih =>
    intro i h
    have ha : articleWF a = true := h a (List.mem_cons_self a rest)
    obtain ⟨infos, h1, h2, h3⟩ :=
      ih (i + 1) (fun b hb => h b (List.mem_cons_of_mem a hb))
    refine ⟨mkInfo (groq i) a :: infos, ?_, ?_, ?_⟩
    · simp [enrich_loop, enrich_article_ok (groq i) a ha, h1]
    · simp [h2]
    · intro k hk hk2
      match k with
      | 0 => simp
      | k + 1 =>
        have hk' : k < rest.length := by simpa using hk
        have hk2' : k < infos.length := by simpa using hk2
        have := h3 k hk' hk2'
        simpa [Nat.add_comm 1 k, Nat.add_assoc] using this

/-- On an `ArticleInfo` whose summary data is complete and whose publish
timestamp parses, `make_embed` succeeds and produces `embedOf`. -/
lemma make_embed_ok (a : ArticleInfo)
    (hs : a.summary_data.summary.isSome = true)
    (hc : a.summary_data.category.isSome = true)
    (hp : (strptimeIsoZ a.publishedAt).isSome = true) :
    make_embed a = Except.ok (embedOf a) := by
  obtain ⟨s, hs'⟩ := Option.isSome_iff_exists.mp hs
  obtain ⟨c, hc'⟩ := Option.isSome_iff_exists.mp hc
  obtain ⟨dt, hp'⟩ := Option.isSome_iff_exists.mp hp
  simp [make_embed, embedOf, hs', hc', hp']

/-- Well-formedness that `make_embed` needs from one enriched record. -/
def infoWF (a : ArticleInfo) : Bool :=
  a.summary_data.summary.isSome && a.summary_data.category.isSome &&
    (strptimeIsoZ a.publishedAt).isSome

/-- On a list of well-formed enriched records, the embed-building loop
succeeds and produces `embedOf` at every position. -/
lemma build_embeds_ok (infos : List ArticleInfo)
    (h : ∀ a ∈ infos, infoWF a = true) :
    ∃ es : List Embed,
      build_embeds infos = Except.ok es ∧
      es.length = infos.length ∧
      ∀ k (hk : k < infos.length) (hk2 : k < es.length),
        es.get ⟨k, hk2⟩ = embedOf (infos.get ⟨k, hk⟩) := by
  induction infos with
  | nil =>
    exact ⟨[], rfl, rfl, fun k hk _ => absurd hk (Nat.not_lt_zero k)⟩
  | cons a rest ih =>
    have ha : infoWF a = true := h a (List.mem_cons_self a rest)
    have ha1 : a.summary_data.summary.isSome = true := by
      unfold infoWF at ha; simp at ha; exact ha.1.1
    have ha2 : a.summary_data.category.isSome = true := by
      unfold infoWF at ha; simp at ha; exact ha.1.2
    have ha3 : (strptimeIsoZ a.publishedAt).isSome = true := by
      unfold infoWF at ha; simp at ha; exact ha.2
    obtain ⟨es, h1, h2, h3⟩ := ih (fun b hb => h b (List.mem_cons_of_mem a hb))
    refine ⟨embedOf a :: es, ?_, ?_, ?_⟩
    · simp [build_embeds, make_embed_ok a ha1 ha2 ha3, h1]
    · simp [h2]
    · intro k hk hk2
      match k with
      | 0 => simp
      | k + 1 =>
        have hk' : k < rest.length := by simpa using hk
        have hk2' : k < es.length := by simpa using hk2
        simpa using h3 k hk' hk2'

/-- The summary data attached by `mkInfo` is complete whenever the
generation outcome is well-formed, whatever the article. -/
lemma mkInfo_summary_wf (oracle : GroqOutcome) (a : Article)
    (hg : groqWF oracle = true) :
    (mkInfo oracle a).summary_data.summary.isSome = true ∧
    (mkInfo oracle a).summary_data.category.isSome = true := by
  unfold mkInfo summarize_and_categorize_with_groq
  by_cases hc : content_to_summarize a = ""
  · simp [hc]
  · cases oracle with
    | fail => simp [hc]
    | parsed d =>
      unfold groqWF at hg
      simp at hg
      simp [hc, hg.1, hg.2]

/-- `mkInfo` preserves the article's `publishedAt` value. -/
lemma mkInfo_publishedAt (oracle : GroqOutcome) (a : Article)
    (h : articleWF a = true) :
    (strptimeIsoZ (mkInfo oracle a).publishedAt).isSome = true := by
  unfold articleWF at h
  cases hp : a.publishedAt with
  | none => rw [hp] at h; simp at h
  | some p =>
    rw [hp] at h
    simp at h
    simpa [mkInfo, hp] using h.2

/-- Central structural lemma: on a non-empty well-formed fetch result and
well-formed generation outcomes, `main` completes the whole pipeline, the
POST is attempted exactly once with outcome `postOk`, and the payload holds
one embed per article, in order, each determined by the article and its own
generation outcome. -/
lemma main_ok (arts : List Article) (groq : Nat → GroqOutcome)
    (nowDate : String) (postOk : Bool) (hne : arts ≠ [])
    (hw : ∀ a ∈ arts, articleWF a = true)
    (hg : ∀ j, groqWF (groq j) = true) :
    ∃ p : DigestPayload,
      main (FetchOutcome.ok (some arts)) groq nowDate postOk =
        Except.ok { summarizeCalls := arts.length, payload := some p,
                    postAttempted := true, postSucceeded := postOk } ∧
      p.username = "AI News Notifier" ∧
      p.content = "## 📢 今日のAIニューストレンド (" ++ nowDate ++ ")" ∧
      p.embeds.length = arts.length ∧
      ∀ k (hk : k < arts.length) (hk2 : k < p.embeds.length),
        p.embeds.get ⟨k, hk2⟩ = embedOf (mkInfo (groq k) (arts.get ⟨k, hk⟩)) := by
  obtain ⟨infos, h1, h2, h3⟩ := enrich_loop_ok groq arts 0 hw
  have hinfos : ∀ b ∈ infos, infoWF b = true := by
    intro b hb
    obtain ⟨⟨k, hk2⟩, hbk⟩ := List.mem_iff_get.mp hb
    have hk : k < arts.length := h2 ▸ hk2
    have hb' := h3 k hk hk2
    rw [hb'] at hbk
    subst hbk
    have hs := mkInfo_summary_wf (groq (0 + k)) (arts.get ⟨k, hk⟩) (hg (0 + k))
    have hp := mkInfo_publishedAt (groq (0 + k)) (arts.get ⟨k, hk⟩)
      (hw _ (List.get_mem arts k hk))
    unfold infoWF
    rw [Bool.and_eq_true, Bool.and_eq_true]
    exact ⟨⟨hs.1, hs.2⟩, hp⟩
  obtain ⟨es, e1, e2, e3⟩ := build_embeds_ok infos hinfos
  have hne' : (arts.isEmpty) = false := by
    cases arts with
    | nil => exact absurd rfl hne
    | cons a rest => rfl
  have hinne : infos.isEmpty = false := by
    cases hi : infos with
    | nil => rw [hi] at h2; cases arts with
      | nil => exact absurd rfl hne
      | cons a rest => simp at h2
    | cons b rest => rfl
  refine ⟨{ username := "AI News Notifier"
            avatar_url := "https://i.imgur.com/4M34hi2.png"
            content := "## 📢 今日のAIニューストレンド (" ++ nowDate ++ ")"
            embeds := es }, ?_, rfl, rfl, ?_, ?_⟩
  · simp [main, get_ai_news, hne', h1, hinne, send_to_discord, build_payload, e1]
  · show es.length = arts.length
    rw [e2, h2]
  · intro k hk hk2
    have hk3 : k < infos.length := h2 ▸ hk
    show es.get ⟨k, hk2⟩ = _
    rw [e3 k hk3 hk2, h3 k hk hk3, Nat.zero_add]

/-- `main` consumes the fetch oracle only through `get_ai_news`. -/
lemma main_congr (fetch : FetchOutcome) (groq : Nat → GroqOutcome)
    (nowDate : String) (postOk : Bool) :
    main fetch groq nowDate postOk =
      main (FetchOutcome.ok (some (get_ai_news fetch))) groq nowDate postOk := rfl

/-- A well-formed sample article used to instantiate witnesses. -/
def sampleArticle : Article :=
  { title := some "Sample AI story"
    url := some "https://example.com/a"
    publishedAt := some "2024-06-01T12:34:56Z"
    content := some "Some article body."
    description := some "A description." }

/-- A second well-formed sample article. -/
def sampleArticle2 : Article :=
  { title := some "Another AI story"
    url := some "https://example.com/b"
    publishedAt := some "2024-06-01T08:00:00Z"
    content := none
    description := some "Only a description." }

/-- A sample enriched record with complete summary data. -/
def sampleInfo : ArticleInfo :=
  { title := "Sample AI story"
    url := "https://example.com/a"
    publishedAt := "2024-06-01T12:34:56Z"
    summary_data := { summary := some "A summary.", category := some "研究" } }

/-- An article whose `publishedAt` is not in the `%Y-%m-%dT%H:%M:%SZ`
format the formatter expects. -/
def badTimestampArticle : Article :=
  { title := some "Bad timestamp"
    url := some "https://example.com/bad"
    publishedAt := some "2024-01-01"
    content := some "Some body text."
    description := none }

/-- C1: for every article whose summarization call fails for any reason
(network error, quota, or output that is not parseable JSON — all raised
exceptions, modelled by the `fail` outcome), the summarizer returns the
fallback whose category is the エラー ("error") sentinel and whose summary
is the fixed placeholder, reaching the external service but propagating no
failure; and the run still enriches and notifies every article: the payload
holds one embed per article, and each article whose generation call failed
(and whose body was non-empty) is displayed with the error placeholder
summary and the error category tag. -/
theorem groq_failure_fallback_and_run_continues (text : String)
    (ht : text ≠ "") (arts : List Article) (groq : Nat → GroqOutcome)
    (nowDate : String) (postOk : Bool) (hne : arts ≠ [])
    (hw : ∀ a ∈ arts, articleWF a = true)
    (hg : ∀ j, groqWF (groq j) = true) :
    summarize_and_categorize_with_groq GroqOutcome.fail text =
      ({ summary := some groq_error_summary, category := some "エラー" }, true) ∧
    ∃ r : RunResult, ∃ p : DigestPayload,
      main (FetchOutcome.ok (some arts)) groq nowDate postOk = Except.ok r ∧
      r.payload = some p ∧
      p.embeds.length = arts.length ∧
      ∀ k (hk : k < arts.length) (hk2 : k < p.embeds.length),
        groq k = GroqOutcome.fail →
        content_to_summarize (arts.get ⟨k, hk⟩) ≠ "" →
          (p.embeds.get ⟨k, hk2⟩).description = groq_error_summary ∧
          (p.embeds.get ⟨k, hk2⟩).fields =
            [{ name := "カテゴリ", value := "`" ++ "エラー" ++ "`", inline := true }] := by
  constructor
  · simp [summarize_and_categorize_with_groq, ht]
  · obtain ⟨p, hmain, _, _, hlen, hpt⟩ := main_ok arts groq nowDate postOk hne hw hg
    refine ⟨_, p, hmain, rfl, hlen, ?_⟩
    intro k hk hk2 hgk hct
    have hsd : (summarize_and_categorize_with_groq (groq k)
        (content_to_summarize (arts.get ⟨k, hk⟩))).1 =
        { summary := some groq_error_summary, category := some "エラー" } := by
      rw [hgk]
      unfold summarize_and_categorize_with_groq
      rw [if_neg hct]
    rw [hpt k hk hk2]
    simp only [embedOf, mkInfo, hsd]
    exact ⟨rfl, rfl⟩

/-- Witness for C1 at a concrete failing run. -/
theorem groq_failure_fallback_and_run_continues_witness :
    summarize_and_categorize_with_groq GroqOutcome.fail "some text" =
      ({ summary := some groq_error_summary, category := some "エラー" }, true) ∧
    ∃ r : RunResult, ∃ p : DigestPayload,
      main (FetchOutcome.ok (some [sampleArticle])) (fun _ => GroqOutcome.fail)
          "2024-06-02" true = Except.ok r ∧
      r.payload = some p ∧
      p.embeds.length = [sampleArticle].length ∧
      ∀ k (hk : k < [sampleArticle].length) (hk2 : k < p.embeds.length),
        (fun _ => GroqOutcome.fail) k = GroqOutcome.fail →
        content_to_summarize ([sampleArticle].get ⟨k, hk⟩) ≠ "" →
          (p.embeds.get ⟨k, hk2⟩).description = groq_error_summary ∧
          (p.embeds.get ⟨k, hk2⟩).fields =
            [{ name := "カテゴリ", value := "`" ++ "エラー" ++ "`", inline := true }] :=
  groq_failure_fallback_and_run_continues "some text" (by decide)
    [sampleArticle] (fun _ => GroqOutcome.fail) "2024-06-02" true
    (by decide) (by decide) (fun _ => rfl)

/-- C2: whenever the news fetch yields an empty article list, the run ends
successfully at once: the summarizer is never invoked and no webhook POST
is attempted. -/
theorem empty_fetch_skips_notifier (fetch : FetchOutcome)
    (groq : Nat → GroqOutcome) (nowDate : String) (postOk : Bool)
    (h : get_ai_news fetch = []) :
    main fetch groq nowDate postOk =
      Except.ok { summarizeCalls := 0, payload := none, postAttempted := false,
                  postSucceeded := false } := by
  rw [main_congr, h]
  rfl

/-- Witness for C2 at a concrete empty fetch. -/
theorem empty_fetch_skips_notifier_witness :
    main (FetchOutcome.ok (some [])) (fun _ => GroqOutcome.fail) "2024-06-02" true =
      Except.ok { summarizeCalls := 0, payload := none, postAttempted := false,
                  postSucceeded := false } :=
  empty_fetch_skips_notifier (FetchOutcome.ok (some []))
    (fun _ => GroqOutcome.fail) "2024-06-02" true rfl

/-- C3: for every non-empty well-formed fetched list, the payload holds
exactly one embed per article, in exactly the fetched order: the `k`-th
embed carries the `k`-th article's title (with the 📰 marker) and URL. -/
theorem digest_preserves_order (arts : List Article) (groq : Nat → GroqOutcome)
    (nowDate : String) (postOk : Bool) (hne : arts ≠ [])
    (hw : ∀ a ∈ arts, articleWF a = true)
    (hg : ∀ j, groqWF (groq j) = true) :
    ∃ r : RunResult, ∃ p : DigestPayload,
      main (FetchOutcome.ok (some arts)) groq nowDate postOk = Except.ok r ∧
      r.payload = some p ∧
      p.embeds.length = arts.length ∧
      ∀ k (hk : k < arts.length) (hk2 : k < p.embeds.length),
        (p.embeds.get ⟨k, hk2⟩).title = "📰 " ++ (arts.get ⟨k, hk⟩).title.getD "" ∧
        (p.embeds.get ⟨k, hk2⟩).url = (arts.get ⟨k, hk⟩).url.getD "" := by
  obtain ⟨p, hmain, _, _, hlen, hpt⟩ := main_ok arts groq nowDate postOk hne hw hg
  refine ⟨_, p, hmain, rfl, hlen, ?_⟩
  intro k hk hk2
  rw [hpt k hk hk2]
  exact ⟨rfl, rfl⟩

/-- Witness for C3 at a concrete two-article run. -/
theorem digest_preserves_order_witness :
    ∃ r : RunResult, ∃ p : DigestPayload,
      main (FetchOutcome.ok (some [sampleArticle, sampleArticle2]))
          (fun _ => GroqOutcome.parsed { summary := some "S.", category := some "研究" })
          "2024-06-02" true = Except.ok r ∧
      r.payload = some p ∧
      p.embeds.length = [sampleArticle, sampleArticle2].length ∧
      ∀ k (hk : k < [sampleArticle, sampleArticle2].length)
          (hk2 : k < p.embeds.length),
        (p.embeds.get ⟨k, hk2⟩).title =
          "📰 " ++ ([sampleArticle, sampleArticle2].get ⟨k, hk⟩).title.getD "" ∧
        (p.embeds.get ⟨k, hk2⟩).url =
          ([sampleArticle, sampleArticle2].get ⟨k, hk⟩).url.getD "" :=
  digest_preserves_order [sampleArticle, sampleArticle2]
    (fun _ => GroqOutcome.parsed { summary := some "S.", category := some "研究" })
    "2024-06-02" true (by decide) (by decide) (fun _ => rfl)

/-- C4: on empty or absent article text, the summarizer returns the fixed
不明 ("unknown") fallback whatever the generation oracle would have said,
and the flag is `false`: the external service is never reached. -/
theorem empty_text_unknown_fallback (oracle : GroqOutcome) (text : String)
    (h : text = "") :
    summarize_and_categorize_with_groq oracle text =
      ({ summary := some empty_content_summary, category := some "不明" }, false) := by
  subst h
  rfl

/-- Witness for C4 at a concrete oracle. -/
theorem empty_text_unknown_fallback_witness :
    summarize_and_categorize_with_groq
        (GroqOutcome.parsed { summary := some "S.", category := some "研究" }) "" =
      ({ summary := some empty_content_summary, category := some "不明" }, false) :=
  empty_text_unknown_fallback
    (GroqOutcome.parsed { summary := some "S.", category := some "研究" }) "" rfl

/-- C5 counterexample: an article whose `publishedAt` is `"2024-01-01"`
(not the expected `%Y-%m-%dT%H:%M:%SZ` shape) makes the run crash with an
uncaught `ValueError` from `strptime` while building the digest, even
though configuration loading passed — so it is not true that, whatever
field values the fetched articles carry, only configuration errors surface
as hard failures. -/
theorem run_soft_failure_counterexample :
    main (FetchOutcome.ok (some [badTimestampArticle]))
        (fun _ => GroqOutcome.fail) "2024-01-02" true =
      Except.error "ValueError: time data does not match format %Y-%m-%dT%H:%M:%SZ" := by
  rfl

/-- C5 (amended): for every run whose fetched articles are well-formed
(title and url present, `publishedAt` parseable) and whose parsed
generation outputs carry both keys, only configuration errors surface as
hard failures: the run completes with `Except.ok`, and in particular a
webhook delivery failure is caught after its single attempt — the run's
recorded delivery outcome is exactly the attempt's outcome and nothing is
re-raised. -/
theorem run_soft_failure_wellformed (fetch : FetchOutcome)
    (groq : Nat → GroqOutcome) (nowDate : String) (postOk : Bool)
    (hw : ∀ a ∈ get_ai_news fetch, articleWF a = true)
    (hg : ∀ j, groqWF (groq j) = true) :
    ∃ r : RunResult, main fetch groq nowDate postOk = Except.ok r ∧
      (r.postAttempted = true → r.postSucceeded = postOk) := by
  rw [main_congr]
  cases he : get_ai_news fetch with
  | nil =>
    refine ⟨{ summarizeCalls := 0, payload := none, postAttempted := false,
              postSucceeded := false }, rfl, ?_⟩
    intro hcon
    exact absurd hcon (by decide)
  | cons a rest =>
    have hw' : ∀ b ∈ (a :: rest), articleWF b = true := he ▸ hw
    obtain ⟨p, hmain, _⟩ :=
      main_ok (a :: rest) groq nowDate postOk (by simp) hw' hg
    exact ⟨_, hmain, fun _ => rfl⟩

/-- Witness for the amended C5 at a concrete run with a failing POST. -/
theorem run_soft_failure_wellformed_witness :
    ∃ r : RunResult,
      main (FetchOutcome.ok (some [sampleArticle])) (fun _ => GroqOutcome.fail)
          "2024-06-02" false = Except.ok r ∧
      (r.postAttempted = true → r.postSucceeded = false) :=
  run_soft_failure_wellformed (FetchOutcome.ok (some [sampleArticle]))
    (fun _ => GroqOutcome.fail) "2024-06-02" false (by decide) (fun _ => rfl)

/-- C6 counterexample: when the generation call succeeds and its output
parses as a JSON object, the summarizer returns that object unvalidated —
here the produced category is the empty string, which is neither a member
of the fixed category set nor a failure sentinel, and is empty. -/
theorem category_unvalidated_counterexample :
    ((summarize_and_categorize_with_groq
        (GroqOutcome.parsed { summary := some "A summary.", category := some "" })
        "some text").1).category = some "" := rfl

/-- C6 (amended): the category is a sentinel — 不明 ("unknown") or エラー
("error") — exactly on the paths the summarizer itself fills in (empty
input, or a failed/unparseable generation call); a successfully parsed
generation output is returned verbatim, with no validation of its category
against the fixed set, so on that path the category is whatever the
external service produced. -/
theorem category_sentinel_or_passthrough (oracle : GroqOutcome) (text : String) :
    ((text = "" ∨ oracle = GroqOutcome.fail) →
      ((summarize_and_categorize_with_groq oracle text).1.category = some "不明" ∨
       (summarize_and_categorize_with_groq oracle text).1.category = some "エラー")) ∧
    (∀ d, oracle = GroqOutcome.parsed d → text ≠ "" →
      (summarize_and_categorize_with_groq oracle text).1 = d) := by
  constructor
  · rintro (h | h)
    · subst h; left; rfl
    · subst h
      by_cases ht : text = ""
      · subst ht; left; rfl
      · right; simp [summarize_and_categorize_with_groq, ht]
  · rintro d rfl ht
    simp [summarize_and_categorize_with_groq, ht]

/-- Witness for the amended C6 at a concrete failed call. -/
theorem category_sentinel_or_passthrough_witness :
    (summarize_and_categorize_with_groq GroqOutcome.fail "some text").1.category =
        some "不明" ∨
    (summarize_and_categorize_with_groq GroqOutcome.fail "some text").1.category =
        some "エラー" :=
  (category_sentinel_or_passthrough GroqOutcome.fail "some text").1 (Or.inr rfl)

/-- C7: for every enriched record whose summary data is complete and whose
publish timestamp parses, the embed is built and its footer shows that
timestamp rendered as `YYYY-MM-DD HH:MM`.  The source performs no zone
arithmetic: the fixed display timezone is UTC, the zone the `Z`-suffixed
input timestamp already carries, so the conversion is the identity and the
displayed fields are exactly the parsed UTC fields. -/
theorem footer_shows_publish_time (a : ArticleInfo) (dt : DateTime6)
    (hs : a.summary_data.summary.isSome = true)
    (hc : a.summary_data.category.isSome = true)
    (hp : strptimeIsoZ a.publishedAt = some dt) :
    ∃ e : Embed, make_embed a = Except.ok e ∧
      e.footerText = "Published at: " ++
        (pad4 dt.year ++ "-" ++ pad2 dt.month ++ "-" ++ pad2 dt.day ++ " " ++
          pad2 dt.hour ++ ":" ++ pad2 dt.minute) := by
  refine ⟨embedOf a, make_embed_ok a hs hc (by rw [hp]; rfl), ?_⟩
  simp [embedOf, hp, strftimeYmdHm]

/-- Witness for C7 at a concrete enriched record. -/
theorem footer_shows_publish_time_witness :
    ∃ e : Embed, make_embed sampleInfo = Except.ok e ∧
      e.footerText = "Published at: " ++
        (pad4 2024 ++ "-" ++ pad2 6 ++ "-" ++ pad2 1 ++ " " ++
          pad2 12 ++ ":" ++ pad2 34) :=
  footer_shows_publish_time sampleInfo
    { year := 2024, month := 6, day := 1, hour := 12, minute := 34, second := 56 }
    rfl rfl (by decide)

/-- C8: the digest formatter is deterministic and idempotent — given equal
article lists and an equal run date it produces equal payloads on repeated
invocations, and the payload does not depend on the delivery outcome of the
POST that follows it. -/
theorem formatter_deterministic (now1 now2 : String)
    (arts1 arts2 : List ArticleInfo) (postOk1 postOk2 : Bool)
    (hn : now1 = now2) (ha : arts1 = arts2) :
    build_payload now1 arts1 = build_payload now2 arts2 ∧
    (send_to_discord now1 postOk1 arts1).map Prod.fst =
      (send_to_discord now2 postOk2 arts2).map Prod.fst := by
  subst hn
  subst ha
  refine ⟨rfl, ?_⟩
  unfold send_to_discord
  cases build_payload now1 arts1 <;> rfl

/-- Witness for C8 at concrete equal inputs and differing POST outcomes. -/
theorem formatter_deterministic_witness :
    build_payload "2024-06-02" [sampleInfo] = build_payload "2024-06-02" [sampleInfo] ∧
    (send_to_discord "2024-06-02" true [sampleInfo]).map Prod.fst =
      (send_to_discord "2024-06-02" false [sampleInfo]).map Prod.fst :=
  formatter_deterministic "2024-06-02" "2024-06-02" [sampleInfo] [sampleInfo]
    true false rfl rfl

/-- C9: when the news fetch suffers a transport failure (network error, or
the non-2xx status raised by `raise_for_status`) or its body fails to parse
as JSON, `get_ai_news` returns the empty list instead of raising, and the
run then terminates early and successfully: no summarizer call, no POST. -/
theorem fetch_failure_returns_empty (fetch : FetchOutcome)
    (groq : Nat → GroqOutcome) (nowDate : String) (postOk : Bool)
    (h : fetch = FetchOutcome.requestError ∨ fetch = FetchOutcome.jsonError) :
    get_ai_news fetch = [] ∧
    main fetch groq nowDate postOk =
      Except.ok { summarizeCalls := 0, payload := none, postAttempted := false,
                  postSucceeded := false } := by
  have he : get_ai_news fetch = [] := by
    rcases h with h | h <;> subst h <;> rfl
  refine ⟨he, ?_⟩
  rw [main_congr, he]
  rfl

/-- Witness for C9 at a concrete transport failure. -/
theorem fetch_failure_returns_empty_witness :
    get_ai_news FetchOutcome.requestError = [] ∧
    main FetchOutcome.requestError (fun _ => GroqOutcome.fail) "2024-06-02" true =
      Except.ok { summarizeCalls := 0, payload := none, postAttempted := false,
                  postSucceeded := false } :=
  fetch_failure_returns_empty FetchOutcome.requestError (fun _ => GroqOutcome.fail)
    "2024-06-02" true (Or.inl rfl)

/-- C10: the text handed to the summarizer is the article's `content` field
when present and non-empty, otherwise its `description` field when present,
otherwise the empty string — `content` takes precedence, and a missing
field yields `""` rather than raising (the lookups use `dict.get`). -/
theorem content_precedence (a : Article) :
    (∀ c, a.content = some c → c ≠ "" → content_to_summarize a = c) ∧
    ((a.content = none ∨ a.content = some "") →
      ∀ d, a.description = some d → content_to_summarize a = d) ∧
    ((a.content = none ∨ a.content = some "") → a.description = none →
      content_to_summarize a = "") := by
  refine ⟨?_, ?_, ?_⟩
  · intro c hc hcne
    simp [content_to_summarize, hc, hcne]
  · rintro (hc | hc) d hd <;> simp [content_to_summarize, hc, hd]
  · rintro (hc | hc) hd <;> simp [content_to_summarize, hc, hd]

/-- Witness for C10: an empty `content` falls back to `description`. -/
theorem content_precedence_witness :
    content_to_summarize
      { title := none, url := none, publishedAt := none,
        content := some "", description := some "the description" } =
      "the description" :=
  (content_precedence
    { title := none, url := none, publishedAt := none,
      content := some "", description := some "the description" }).2.1
    (Or.inr rfl) "the description" rfl

end AINews
